import Mathlib

/-!
Shallow embedding of the session-authenticated web application in
`src/index.js`: a single Express application with a Mongo-backed user
collection, server-side sessions, signup/login flows, a members page,
an admin listing, and promote/demote role mutations.

Requests are modelled as pure functions from an explicit application
state (the user collection plus a fresh-id counter) and a session value
to a result; effectful route handlers return the updated state together
with the HTTP response they produce.
-/

namespace App

/-- A persisted `User` document, as declared by `userSchema` in
`src/index.js` lines 27-33: name, unique email, (hashed) password and a
`user_type` field defaulting to the string `user`.  The store-assigned
Mongo `_id` is modelled as a `Nat`. -/
structure User where
  id : Nat
  name : String
  email : String
  password : String
  user_type : String
deriving DecidableEq, Repr

/-- The value stored in `req.session.user`.  The signup handler (line 89)
stores only `\x7b name \x7d`, so every field other than `name` is optional:
an absent JS property is `none`.  The login handler (lines 128-133)
stores all four fields. -/
structure SessUser where
  _id : Option Nat
  name : String
  email : Option String
  user_type : Option String
deriving DecidableEq, Repr

/-- `req.session.user`: absent (`none`) or a stored snapshot. -/
abbrev Session := Option SessUser

/-- The mutable application state visible to the handlers: the user
collection and a counter supplying the next store-assigned id. -/
structure AppState where
  users : List User
  nextId : Nat
deriving DecidableEq, Repr

/-- The responses the handlers of `src/index.js` can produce: redirects,
rendered views (with their payloads), `res.status(n).send(body)`, and an
uncaught store failure (a duplicate-email `save()` rejects and no
handler catches it). -/
inductive Response where
  | redirect (loc : String)
  | renderSignup (err : Option String)
  | renderLogin (err : Option String)
  | renderHome (user : Option SessUser)
  | renderMembers (name : String) (images : List String)
  | renderAdmin (users : List User)
  | send (status : Nat) (body : String)
  | storeError
deriving DecidableEq, Repr

/-- JS falsiness of a form field: `!x` is true when the field is absent
(`undefined`) or the empty string. -/
def falsy : Option String → Bool
  | none => true
  | some s => s == ""

/-- Modelled from the spec: the external bcrypt hasher, a one-way hash
whose verify succeeds exactly on the hashed password (`bcrypt.hash` at
line 84; salting is irrelevant to the properties proved here, so the
model is deterministic and injective). -/
def bcryptHash (p : String) : String := "$2b$10$" ++ p

/-- Modelled from the spec: `bcrypt.compare(password, digest)` succeeds
iff `digest` is the hash of `password` (line 122). -/
def bcryptCompare (p digest : String) : Bool := bcryptHash p == digest

/-- Joi `alphanum`: ASCII letters and digits only. -/
def isAlphanumChar (c : Char) : Bool := c.isAlpha || c.isDigit

/-- `Joi.string().alphanum().min(2).max(30)` on the signup name. -/
def nameValid (s : String) : Bool :=
  s.data.all isAlphanumChar && decide (2 ≤ s.length) && decide (s.length ≤ 30)

/-- Split a character list at every occurrence of `c`. -/
def splitOnChar (c : Char) : List Char → List (List Char)
  | [] => [[]]
  | x :: xs =>
    if x == c then [] :: splitOnChar c xs
    else
      match splitOnChar c xs with
      | [] => [[x]]
      | r :: rs => (x :: r) :: rs

/-- Modelled from the spec: `Joi.string().email()`, a well-formed email
(external Joi library): one `@` separating a nonempty local part from a
domain of at least two nonempty dot-separated labels. -/
def emailWellFormed (s : String) : Bool :=
  match splitOnChar '@' s.data with
  | [lp, dom] =>
    !lp.isEmpty &&
      (let parts := splitOnChar '.' dom
       decide (2 ≤ parts.length) && parts.all (fun t => !t.isEmpty))
  | _ => false

/-- `Joi.string().min(5).max(50)` on the password. -/
def passwordValid (s : String) : Bool :=
  decide (5 ≤ s.length) && decide (s.length ≤ 50)

/-- The first Joi validation error for the signup form (lines 72-78);
Joi validates with abortEarly, in schema key order, and the handler
renders `error.details[0].message`.  The message texts stand in for the
library-generated ones, which no property here inspects. -/
def joiSignupError (n e p : String) : Option String :=
  if !nameValid n then some "name is invalid"
  else if !emailWellFormed e then some "email is invalid"
  else if !passwordValid p then some "password is invalid"
  else none

/-- The first Joi validation error for the login form (lines 106-111). -/
def joiLoginError (e p : String) : Option String :=
  if !emailWellFormed e then some "email is invalid"
  else if !passwordValid p then some "password is invalid"
  else none

/-- `POST /signup` (lines 63-91): falsiness check, Joi validation,
hash, persist (a duplicate email makes `save()` reject uncaught, before
any session write), store `\x7b name \x7d` in the session, redirect. -/
def handleSignup (st : AppState) (sess : Session)
    (name email password : Option String) : AppState × Session × Response :=
  if falsy name || falsy email || falsy password then
    (st, sess, .renderSignup (some "Please fill in all fields."))
  else
    let n := name.getD ""
    let e := email.getD ""
    let p := password.getD ""
    match joiSignupError n e p with
    | some msg => (st, sess, .renderSignup (some msg))
    | none =>
      if st.users.any (fun u => u.email == e) then
        (st, sess, .storeError)
      else
        let hashed := bcryptHash p
        let newUser : User :=
          { id := st.nextId, name := n, email := e
            password := hashed, user_type := "user" }
        ({ users := st.users ++ [newUser], nextId := st.nextId + 1 },
         some { _id := none, name := n, email := none, user_type := none },
         .redirect "/members")

/-- `POST /login` (lines 99-136): falsiness check, Joi validation,
`findOne` by email, bcrypt compare, then store the full snapshot in the
session and redirect; both lookup failure and compare failure render
the same message. -/
def handleLogin (st : AppState) (sess : Session)
    (email password : Option String) : Session × Response :=
  if falsy email || falsy password then
    (sess, .renderLogin (some "Please enter both email and password."))
  else
    let e := email.getD ""
    let p := password.getD ""
    match joiLoginError e p with
    | some msg => (sess, .renderLogin (some msg))
    | none =>
      match st.users.find? (fun u => u.email == e) with
      | none => (sess, .renderLogin (some "User and password not found."))
      | some u =>
        if bcryptCompare p u.password then
          (some { _id := some u.id, name := u.name
                  email := some u.email, user_type := some u.user_type },
           .redirect "/members")
        else
          (sess, .renderLogin (some "User and password not found."))

/-- `GET /` (lines 52-55). -/
def handleHome (sess : Session) : Response := .renderHome sess

/-- `GET /members` (lines 176-186): no session redirects to `/`;
otherwise render the session name and the hardcoded image list. -/
def handleMembers (sess : Session) : Response :=
  match sess with
  | none => .redirect "/"
  | some u => .renderMembers u.name ["Cat1.jpg", "Cat2.jpg", "Cat3.jpg"]

/-- `GET /admin` (lines 139-153): no session redirects to `/login`;
a session whose `user_type` is not `admin` gets HTTP 403; otherwise
render all users. -/
def handleAdmin (st : AppState) (sess : Session) : Response :=
  match sess with
  | none => .redirect "/login"
  | some u =>
    if u.user_type ≠ some "admin" then .send 403 "Not authorized"
    else .renderAdmin st.users

/-- `User.updateOne(\x7b _id \x7d, \x7b user_type \x7d)`: update the
role of the first document matching the id (ids are store-assigned and
unique), leaving every other field and document alone; a no-op when no
document matches. -/
def updateRoleFirst : List User → Nat → String → List User
  | [], _, _ => []
  | u :: rest, tid, role =>
    if u.id == tid then { u with user_type := role } :: rest
    else u :: updateRoleFirst rest tid role

/-- `GET /promote/:id` (lines 156-163): 403 unless the session exists
and its `user_type` is `admin`; then set the target role to `admin`
and redirect to `/admin` regardless of whether anything matched. -/
def handlePromote (st : AppState) (sess : Session) (tid : Nat) :
    AppState × Response :=
  match sess with
  | none => (st, .send 403 "Not authorized")
  | some u =>
    if u.user_type ≠ some "admin" then (st, .send 403 "Not authorized")
    else ({ st with users := updateRoleFirst st.users tid "admin" },
          .redirect "/admin")

/-- `GET /demote/:id` (lines 166-173): same guard, role set to `user`. -/
def handleDemote (st : AppState) (sess : Session) (tid : Nat) :
    AppState × Response :=
  match sess with
  | none => (st, .send 403 "Not authorized")
  | some u =>
    if u.user_type ≠ some "admin" then (st, .send 403 "Not authorized")
    else ({ st with users := updateRoleFirst st.users tid "user" },
          .redirect "/admin")

/-- `GET /logout` (lines 189-196): `req.session.destroy(cb)`; the
callback logs a destruction error if any and redirects to `/` either
way.  `destroyErr` is the error the session store passes the callback
(`none` on success); on success the session is gone. -/
def handleLogout (sess : Session) (destroyErr : Option String) :
    Session × List String × Response :=
  match destroyErr with
  | some e => (sess, ["Error destroying session: " ++ e], .redirect "/")
  | none => (none, [], .redirect "/")

/-- Whole-system state for properties about sessions other than the
requesting one: the application state plus the session store, a map
from opaque session id to the stored snapshot. -/
structure SysState where
  app : AppState
  sessions : List (Nat × SessUser)
deriving DecidableEq, Repr

/-- Look up a session by id in the session store. -/
def sessLookup (ss : List (Nat × SessUser)) (sid : Nat) : Option SessUser :=
  match ss.find? (fun kv => kv.1 == sid) with
  | some kv => some kv.2
  | none => none

/-- `GET /promote/:id` at the system level: the handler reads the
requesting session from the store and only ever writes `app.users`. -/
def sysPromote (s : SysState) (sid tid : Nat) : SysState × Response :=
  let r := handlePromote s.app (sessLookup s.sessions sid) tid
  ({ s with app := r.1 }, r.2)

/-- `GET /demote/:id` at the system level. -/
def sysDemote (s : SysState) (sid tid : Nat) : SysState × Response :=
  let r := handleDemote s.app (sessLookup s.sessions sid) tid
  ({ s with app := r.1 }, r.2)

end App

namespace App

/-! ### Helper lemmas -/

lemma nameValid_ne_empty {n : String} (h : nameValid n = true) : n ≠ "" := by
  intro hn
  rw [hn] at h
  exact absurd h (by decide)

lemma emailWellFormed_ne_empty {e : String} (h : emailWellFormed e = true) :
    e ≠ "" := by
  intro he
  rw [he] at h
  exact absurd h (by decide)

lemma passwordValid_ne_empty {p : String} (h : passwordValid p = true) :
    p ≠ "" := by
  intro hp
  rw [hp] at h
  exact absurd h (by decide)

lemma falsy_some_eq_false {s : String} (h : s ≠ "") : falsy (some s) = false := by
  simp [falsy, h]

lemma bcryptHash_inj {p q : String} (h : bcryptHash p = bcryptHash q) : p = q := by
  have hd := congrArg String.data h
  rw [bcryptHash, bcryptHash, String.data_append, String.data_append] at hd
  exact String.ext (List.append_cancel_left hd)

lemma bcryptCompare_self (p : String) : bcryptCompare p (bcryptHash p) = true := by
  simp [bcryptCompare]

lemma bcryptCompare_of_ne {p q : String} (h : q ≠ p) :
    bcryptCompare q (bcryptHash p) = false := by
  simp only [bcryptCompare, beq_eq_false_iff_ne, ne_eq]
  intro hc
  exact h (bcryptHash_inj hc)

lemma joiSignupError_eq_none {n e p : String} :
    joiSignupError n e p = none ↔
      (nameValid n = true ∧ emailWellFormed e = true ∧ passwordValid p = true) := by
  unfold joiSignupError
  split_ifs <;> simp_all

lemma joiLoginError_eq_none {e p : String} :
    joiLoginError e p = none ↔
      (emailWellFormed e = true ∧ passwordValid p = true) := by
  unfold joiLoginError
  split_ifs <;> simp_all

lemma find?_append_of_none {l : List User} {f : User → Bool} {x : User}
    (h : l.find? f = none) :
    (l ++ [x]).find? f = if f x then some x else none := by
  induction l with
  | nil => cases hx : f x <;> simp [List.find?, hx]
  | cons a as ih =>
    rw [List.find?] at h
    cases ha : f a with
    | true => rw [ha] at h; exact absurd h (by simp)
    | false =>
      rw [ha] at h
      simp only [List.cons_append, List.find?, ha]
      exact ih h

lemma any_false_find?_none {l : List User} {f : User → Bool}
    (h : l.any f = false) : l.find? f = none := by
  rw [List.find?_eq_none]
  intro x hx
  rw [List.any_eq_false] at h
  exact fun hf => h x hx hf

/-- Successful signup, computed: the exact state, session and response
produced by `handleSignup` on valid fresh input. -/
lemma signup_success {st : AppState} {sess : Session} {n e p : String}
    (hn : nameValid n = true) (he : emailWellFormed e = true)
    (hp : passwordValid p = true)
    (hfresh : st.users.any (fun u => u.email == e) = false) :
    handleSignup st sess (some n) (some e) (some p) =
      ({ users := st.users ++
            [{ id := st.nextId, name := n, email := e
               password := bcryptHash p, user_type := "user" }]
         nextId := st.nextId + 1 },
       some { _id := none, name := n, email := none, user_type := none },
       Response.redirect "/members") := by
  have hn' := falsy_some_eq_false (nameValid_ne_empty hn)
  have he' := falsy_some_eq_false (emailWellFormed_ne_empty he)
  have hp' := falsy_some_eq_false (passwordValid_ne_empty hp)
  have hj : joiSignupError n e p = none := joiSignupError_eq_none.mpr ⟨hn, he, hp⟩
  simp [handleSignup, hn', he', hp', hj, hfresh]

end App

namespace App

/-- `updateOne` touches no field other than `user_type`, and no
document other than (at most) the first match. -/
lemma updateRoleFirst_frame (l : List User) (tid : Nat) (role : String) :
    List.Forall₂
      (fun a b => b.id = a.id ∧ b.name = a.name ∧ b.email = a.email ∧
        b.password = a.password) l (updateRoleFirst l tid role) := by
  induction l with
  | nil => exact List.Forall₂.nil
  | cons a as ih =>
    rw [updateRoleFirst]
    split
    · exact List.Forall₂.cons ⟨rfl, rfl, rfl, rfl⟩
        (List.forall₂_same.mpr (fun x _ => ⟨rfl, rfl, rfl, rfl⟩))
    · exact List.Forall₂.cons ⟨rfl, rfl, rfl, rfl⟩ ih

/-- `updateOne` with an id that matches no document is a no-op. -/
lemma updateRoleFirst_absent {l : List User} {tid : Nat} (role : String)
    (h : l.all (fun u => !(u.id == tid)) = true) :
    updateRoleFirst l tid role = l := by
  induction l with
  | nil => rfl
  | cons a as ih =>
    rw [List.all_cons, Bool.and_eq_true] at h
    rw [updateRoleFirst]
    have ha : (a.id == tid) = false := by
      cases hx : a.id == tid
      · rfl
      · rw [hx] at h; exact absurd h.1 (by decide)
    rw [ha]
    simp only [Bool.false_eq_true, if_false]
    rw [ih h.2]

/-- `updateOne` on a collection containing the target sets exactly the
first matching document's role. -/
lemma updateRoleFirst_hit {pre : List User} {t : User} (post : List User)
    {tid : Nat} (role : String)
    (hpre : pre.all (fun u => !(u.id == tid)) = true) (ht : t.id = tid) :
    updateRoleFirst (pre ++ t :: post) tid role =
      pre ++ { t with user_type := role } :: post := by
  induction pre with
  | nil =>
    rw [List.nil_append, updateRoleFirst]
    have : (t.id == tid) = true := beq_iff_eq.mpr ht
    rw [this]
    simp
  | cons a as ih =>
    rw [List.all_cons, Bool.and_eq_true] at hpre
    have ha : (a.id == tid) = false := by
      cases hx : a.id == tid
      · rfl
      · rw [hx] at hpre; exact absurd hpre.1 (by decide)
    rw [List.cons_append, updateRoleFirst, ha]
    simp only [Bool.false_eq_true, if_false, List.cons_append]
    rw [ih hpre.2]

end App

namespace App

/-- Claim C1, counterexample: as stated, the claim says an absent
session on the members route yields a redirect to `/login`, and that
absent-session failures on the guarded routes are redirects; the code
redirects `/members` to `/` and answers `/promote/:id` with HTTP 403
when the session is absent. -/
theorem c1_counterexample :
    handleMembers none = Response.redirect "/" ∧
    handleMembers none ≠ Response.redirect "/login" ∧
    handlePromote ⟨[], 0⟩ none 0 = (⟨[], 0⟩, Response.send 403 "Not authorized") := by
  decide

/-- Claim C1, amended: the guard on protected routes behaves as
follows when the session is absent: `/members` redirects to `/`,
`/admin` redirects to `/login`, and `/promote/:id` and `/demote/:id`
answer HTTP 403; with a session present whose role is not `admin`,
every admin-only route answers HTTP 403. -/
theorem c1_guard_amended (st st2 : AppState) (tid : Nat) (su : SessUser)
    (h : su.user_type ≠ some "admin") :
    handleMembers none = Response.redirect "/" ∧
    handleAdmin st none = Response.redirect "/login" ∧
    handlePromote st none tid = (st, Response.send 403 "Not authorized") ∧
    handleDemote st none tid = (st, Response.send 403 "Not authorized") ∧
    handleAdmin st2 (some su) = Response.send 403 "Not authorized" ∧
    handlePromote st2 (some su) tid = (st2, Response.send 403 "Not authorized") ∧
    handleDemote st2 (some su) tid = (st2, Response.send 403 "Not authorized") := by
  refine ⟨rfl, rfl, rfl, rfl, ?_, ?_, ?_⟩ <;>
    simp [handleAdmin, handlePromote, handleDemote, h]

/-- Witness for the amended claim C1 at a concrete state and
non-admin session. -/
theorem c1_guard_amended_witness :
    handleMembers none = Response.redirect "/" ∧
    handleAdmin ⟨[], 0⟩ none = Response.redirect "/login" ∧
    handlePromote ⟨[], 0⟩ none 0 = (⟨[], 0⟩, Response.send 403 "Not authorized") ∧
    handleDemote ⟨[], 0⟩ none 0 = (⟨[], 0⟩, Response.send 403 "Not authorized") ∧
    handleAdmin ⟨[], 0⟩ (some ⟨none, "bob", none, none⟩) =
      Response.send 403 "Not authorized" ∧
    handlePromote ⟨[], 0⟩ (some ⟨none, "bob", none, none⟩) 0 =
      (⟨[], 0⟩, Response.send 403 "Not authorized") ∧
    handleDemote ⟨[], 0⟩ (some ⟨none, "bob", none, none⟩) 0 =
      (⟨[], 0⟩, Response.send 403 "Not authorized") :=
  c1_guard_amended ⟨[], 0⟩ ⟨[], 0⟩ 0 ⟨none, "bob", none, none⟩ (by decide)

/-- Claim C2: for a well-formed login request, the response when no
user has that email is exactly the response when a user exists but the
hash comparison fails, and both render the message
`User and password not found.`, so the two runs are indistinguishable
to the client. -/
theorem c2_login_indistinguishable (st1 st2 : AppState)
    (sess1 sess2 : Session) (e p : String) (u : User)
    (he : emailWellFormed e = true) (hp : passwordValid p = true)
    (h1 : st1.users.find? (fun v => v.email == e) = none)
    (h2 : st2.users.find? (fun v => v.email == e) = some u)
    (hc : bcryptCompare p u.password = false) :
    (handleLogin st1 sess1 (some e) (some p)).2 =
      (handleLogin st2 sess2 (some e) (some p)).2 ∧
    (handleLogin st1 sess1 (some e) (some p)).2 =
      Response.renderLogin (some "User and password not found.") := by
  have he' := falsy_some_eq_false (emailWellFormed_ne_empty he)
  have hp' := falsy_some_eq_false (passwordValid_ne_empty hp)
  have hj : joiLoginError e p = none := joiLoginError_eq_none.mpr ⟨he, hp⟩
  simp [handleLogin, he', hp', hj, h1, h2, hc]

/-- Witness for claim C2: an empty store versus a store holding the
email with a different password. -/
theorem c2_witness :
    (handleLogin ⟨[], 0⟩ none (some "b@x.com") (some "secret")).2 =
      (handleLogin ⟨[⟨0, "bob", "b@x.com", bcryptHash "word1", "user"⟩], 1⟩
        none (some "b@x.com") (some "secret")).2 ∧
    (handleLogin ⟨[], 0⟩ none (some "b@x.com") (some "secret")).2 =
      Response.renderLogin (some "User and password not found.") :=
  c2_login_indistinguishable ⟨[], 0⟩
    ⟨[⟨0, "bob", "b@x.com", bcryptHash "word1", "user"⟩], 1⟩ none none
    "b@x.com" "secret" ⟨0, "bob", "b@x.com", bcryptHash "word1", "user"⟩
    (by decide) (by decide) (by decide) (by decide) (by decide)

/-- Claim C3: a signup that passes validation on a store without that
email hashes the password, appends a user whose role is the schema
default `user`, sets the session to an object holding only the name,
and redirects to `/members`. -/
theorem c3_signup_success (st : AppState) (sess : Session) (n e p : String)
    (hn : nameValid n = true) (he : emailWellFormed e = true)
    (hp : passwordValid p = true)
    (hfresh : st.users.any (fun u => u.email == e) = false) :
    handleSignup st sess (some n) (some e) (some p) =
      (⟨st.users ++ [⟨st.nextId, n, e, bcryptHash p, "user"⟩], st.nextId + 1⟩,
       some ⟨none, n, none, none⟩, Response.redirect "/members") :=
  signup_success hn he hp hfresh

/-- Witness for claim C3 at a concrete valid signup. -/
theorem c3_witness :
    handleSignup ⟨[], 0⟩ none (some "alice1") (some "a@x.com") (some "secret") =
      (⟨[⟨0, "alice1", "a@x.com", bcryptHash "secret", "user"⟩], 1⟩,
       some ⟨none, "alice1", none, none⟩, Response.redirect "/members") :=
  c3_signup_success ⟨[], 0⟩ none "alice1" "a@x.com" "secret"
    (by decide) (by decide) (by decide) (by decide)

/-- Claim C4: signup followed by login with the same email and
password succeeds, redirecting to `/members` with session role `user`;
and verify(p, hash(p)) holds while verify(q, hash(p)) fails for any
other string q. -/
theorem c4_signup_login_roundtrip (st : AppState) (sess sess2 : Session)
    (n e p q : String)
    (hn : nameValid n = true) (he : emailWellFormed e = true)
    (hp : passwordValid p = true)
    (hfresh : st.users.any (fun u => u.email == e) = false)
    (hq : q ≠ p) :
    handleLogin (handleSignup st sess (some n) (some e) (some p)).1 sess2
        (some e) (some p) =
      (some ⟨some st.nextId, n, some e, some "user"⟩,
       Response.redirect "/members") ∧
    bcryptCompare p (bcryptHash p) = true ∧
    bcryptCompare q (bcryptHash p) = false := by
  refine ⟨?_, bcryptCompare_self p, bcryptCompare_of_ne hq⟩
  rw [signup_success hn he hp hfresh]
  have he' := falsy_some_eq_false (emailWellFormed_ne_empty he)
  have hp' := falsy_some_eq_false (passwordValid_ne_empty hp)
  have hj : joiLoginError e p = none := joiLoginError_eq_none.mpr ⟨he, hp⟩
  have hfind0 : st.users.find? (fun u => u.email == e) = none :=
    any_false_find?_none hfresh
  simp [handleLogin, he', hp', hj, hfind0, bcryptCompare_self]

/-- Witness for claim C4 at a concrete signup and login. -/
theorem c4_witness :
    handleLogin (handleSignup ⟨[], 0⟩ none (some "alice1") (some "a@x.com")
        (some "secret")).1 none (some "a@x.com") (some "secret") =
      (some ⟨some 0, "alice1", some "a@x.com", some "user"⟩,
       Response.redirect "/members") ∧
    bcryptCompare "secret" (bcryptHash "secret") = true ∧
    bcryptCompare "other1" (bcryptHash "secret") = false :=
  c4_signup_login_roundtrip ⟨[], 0⟩ none none "alice1" "a@x.com" "secret"
    "other1" (by decide) (by decide) (by decide) (by decide) (by decide)

end App

namespace App

/-- A form field is falsy exactly when it is absent or empty. -/
lemma falsy_eq_true_iff {o : Option String} :
    falsy o = true ↔ o = none ∨ o = some "" := by
  cases o with
  | none => simp [falsy]
  | some s => simp [falsy]

/-- The signup handler answers a re-rendered form with an error message
while leaving state and session untouched exactly when a falsiness
check or the Joi validation fails. -/
lemma signup_renders_error_iff (st : AppState) (sess : Session)
    (nm em pw : Option String) :
    (∃ msg, handleSignup st sess nm em pw =
        (st, sess, Response.renderSignup (some msg))) ↔
      ((falsy nm || falsy em || falsy pw) ||
        (joiSignupError (nm.getD "") (em.getD "") (pw.getD "")).isSome) = true := by
  by_cases h1 : (falsy nm || falsy em || falsy pw) = true
  · constructor
    · intro _
      simp [h1]
    · intro _
      exact ⟨"Please fill in all fields.", by simp [handleSignup, h1]⟩
  · have h1' : (falsy nm || falsy em || falsy pw) = false := by
      cases hx : (falsy nm || falsy em || falsy pw)
      · rfl
      · exact absurd hx h1
    cases hj : joiSignupError (nm.getD "") (em.getD "") (pw.getD "") with
    | some msg =>
      constructor
      · intro _
        simp [h1', hj]
      · intro _
        exact ⟨msg, by simp [handleSignup, h1', hj]⟩
    | none =>
      constructor
      · rintro ⟨msg, hmsg⟩
        cases hd : st.users.any (fun u => u.email == em.getD "") with
        | true => simp [handleSignup, h1', hj, hd] at hmsg
        | false => simp [handleSignup, h1', hj, hd] at hmsg
      · intro hx
        rw [h1'] at hx
        simp at hx

/-- The falsiness-or-Joi condition coincides with the condition the
claim words: a field is missing, or name, email or password is
invalid. -/
lemma signup_invalid_bool_iff (nm em pw : Option String) :
    ((falsy nm || falsy em || falsy pw) ||
        (joiSignupError (nm.getD "") (em.getD "") (pw.getD "")).isSome) = true ↔
      (nm = none ∨ em = none ∨ pw = none ∨
        nameValid (nm.getD "") = false ∨ emailWellFormed (em.getD "") = false ∨
        passwordValid (pw.getD "") = false) := by
  constructor
  · intro h
    simp only [Bool.or_eq_true] at h
    rcases h with ((hf | hf) | hf) | hj
    · rcases falsy_eq_true_iff.mp hf with h0 | h0
      · exact Or.inl h0
      · subst h0
        exact Or.inr (Or.inr (Or.inr (Or.inl (by decide))))
    · rcases falsy_eq_true_iff.mp hf with h0 | h0
      · exact Or.inr (Or.inl h0)
      · subst h0
        exact Or.inr (Or.inr (Or.inr (Or.inr (Or.inl (by decide)))))
    · rcases falsy_eq_true_iff.mp hf with h0 | h0
      · exact Or.inr (Or.inr (Or.inl h0))
      · subst h0
        exact Or.inr (Or.inr (Or.inr (Or.inr (Or.inr (by decide)))))
    · unfold joiSignupError at hj
      split_ifs at hj with ha hb hc
      · simp only [Bool.not_eq_true'] at ha
        exact Or.inr (Or.inr (Or.inr (Or.inl ha)))
      · simp only [Bool.not_eq_true'] at hb
        exact Or.inr (Or.inr (Or.inr (Or.inr (Or.inl hb))))
      · simp only [Bool.not_eq_true'] at hc
        exact Or.inr (Or.inr (Or.inr (Or.inr (Or.inr hc))))
      · simp at hj
  · intro h
    rcases h with h | h | h | h | h | h
    · subst h
      simp [falsy]
    · subst h
      simp [falsy]
    · subst h
      simp [falsy]
    · simp [joiSignupError, h]
    · cases hn : nameValid (nm.getD "") <;> simp [joiSignupError, hn, h]
    · cases hn : nameValid (nm.getD "") <;>
        cases hem : emailWellFormed (em.getD "") <;>
          simp [joiSignupError, hn, hem, h]

/-- Claim C5: a signup request fails with a validation error — the
form re-rendered with a message, no user persisted, no session
created — if and only if a field is missing, or the name is not
alphanumeric of length 2 to 30, or the email is not well-formed, or
the password length is outside 5 to 50. -/
theorem c5_signup_validation_iff (st : AppState) (sess : Session)
    (nm em pw : Option String) :
    (∃ msg, handleSignup st sess nm em pw =
        (st, sess, Response.renderSignup (some msg))) ↔
      (nm = none ∨ em = none ∨ pw = none ∨
        nameValid (nm.getD "") = false ∨ emailWellFormed (em.getD "") = false ∨
        passwordValid (pw.getD "") = false) :=
  (signup_renders_error_iff st sess nm em pw).trans
    (signup_invalid_bool_iff nm em pw)

/-- Claim C6: with an admin session, promote and demote set the target
role unconditionally and redirect to `/admin`; the update touches no
other field and no other document, and is a no-op when the id is
absent. -/
theorem c6_set_role (st stAbs : AppState) (pre post : List User) (t : User)
    (su : SessUser) (tid : Nat) (role : String)
    (hsu : su.user_type = some "admin")
    (habs : stAbs.users.all (fun u => !(u.id == tid)) = true)
    (hpre : pre.all (fun u => !(u.id == tid)) = true)
    (ht : t.id = tid) :
    handlePromote st (some su) tid =
      ({ st with users := updateRoleFirst st.users tid "admin" },
       Response.redirect "/admin") ∧
    handleDemote st (some su) tid =
      ({ st with users := updateRoleFirst st.users tid "user" },
       Response.redirect "/admin") ∧
    updateRoleFirst (pre ++ t :: post) tid role =
      pre ++ { t with user_type := role } :: post ∧
    updateRoleFirst stAbs.users tid role = stAbs.users ∧
    List.Forall₂
      (fun a b => b.id = a.id ∧ b.name = a.name ∧ b.email = a.email ∧
        b.password = a.password) st.users (updateRoleFirst st.users tid role) :=
  ⟨by simp [handlePromote, hsu], by simp [handleDemote, hsu],
   updateRoleFirst_hit post role hpre ht, updateRoleFirst_absent role habs,
   updateRoleFirst_frame st.users tid role⟩

/-- Witness for claim C6 at a one-user store, an admin session, an
empty store for the absent-id case. -/
theorem c6_witness :
    handlePromote ⟨[⟨0, "alice1", "a@x.com", "h1", "user"⟩], 1⟩
        (some ⟨some 1, "root", some "r@x.com", some "admin"⟩) 0 =
      (⟨updateRoleFirst [⟨0, "alice1", "a@x.com", "h1", "user"⟩] 0 "admin", 1⟩,
       Response.redirect "/admin") ∧
    handleDemote ⟨[⟨0, "alice1", "a@x.com", "h1", "user"⟩], 1⟩
        (some ⟨some 1, "root", some "r@x.com", some "admin"⟩) 0 =
      (⟨updateRoleFirst [⟨0, "alice1", "a@x.com", "h1", "user"⟩] 0 "user", 1⟩,
       Response.redirect "/admin") ∧
    updateRoleFirst ([] ++ ⟨0, "alice1", "a@x.com", "h1", "user"⟩ :: []) 0 "admin" =
      [] ++ ⟨0, "alice1", "a@x.com", "h1", "admin"⟩ :: [] ∧
    updateRoleFirst ([] : List User) 0 "admin" = [] ∧
    List.Forall₂
      (fun (a b : User) => b.id = a.id ∧ b.name = a.name ∧ b.email = a.email ∧
        b.password = a.password) [⟨0, "alice1", "a@x.com", "h1", "user"⟩]
      (updateRoleFirst [⟨0, "alice1", "a@x.com", "h1", "user"⟩] 0 "admin") :=
  c6_set_role ⟨[⟨0, "alice1", "a@x.com", "h1", "user"⟩], 1⟩ ⟨[], 0⟩ [] []
    ⟨0, "alice1", "a@x.com", "h1", "user"⟩
    ⟨some 1, "root", some "r@x.com", some "admin"⟩ 0 "admin"
    (by decide) (by decide) (by decide) (by decide)

/-- Claim C7: promote and demote modify no session record: the session
store is unchanged, every stored snapshot reads back identically, and
the admin-guard decision for any session is the same before and after
the role change. -/
theorem c7_sessions_unchanged (s : SysState) (sid tid : Nat) :
    (sysPromote s sid tid).1.sessions = s.sessions ∧
    (sysDemote s sid tid).1.sessions = s.sessions ∧
    (∀ sid2, sessLookup (sysPromote s sid tid).1.sessions sid2 =
      sessLookup s.sessions sid2) ∧
    (∀ sid2 (st2 : AppState),
      handleAdmin st2 (sessLookup (sysPromote s sid tid).1.sessions sid2) =
        handleAdmin st2 (sessLookup s.sessions sid2)) :=
  ⟨rfl, rfl, fun _ => rfl, fun _ _ => rfl⟩

/-- Claim C8: logout destroys the session and redirects to `/`; on
destruction failure the error is logged and the redirect is still
sent; after a successful logout a request to `/members` redirects
to `/`. -/
theorem c8_logout (sess : Session) (e : String) :
    handleLogout sess none = (none, [], Response.redirect "/") ∧
    (handleLogout sess (some e)).2.2 = Response.redirect "/" ∧
    (handleLogout sess (some e)).2.1 = ["Error destroying session: " ++ e] ∧
    handleMembers (handleLogout sess none).1 = Response.redirect "/" :=
  ⟨rfl, rfl, rfl, rfl⟩

/-- Claim C9: the session a successful signup creates holds only the
name, and with it every request to `/admin`, `/promote/:id` or
`/demote/:id` answers HTTP 403, whatever the stored user records say. -/
theorem c9_signup_session_not_admin (st st2 : AppState) (sess : Session)
    (n e p : String) (tid : Nat)
    (hn : nameValid n = true) (he : emailWellFormed e = true)
    (hp : passwordValid p = true)
    (hfresh : st.users.any (fun u => u.email == e) = false) :
    (handleSignup st sess (some n) (some e) (some p)).2.1 =
      some ⟨none, n, none, none⟩ ∧
    handleAdmin st2 (some ⟨none, n, none, none⟩) =
      Response.send 403 "Not authorized" ∧
    handlePromote st2 (some ⟨none, n, none, none⟩) tid =
      (st2, Response.send 403 "Not authorized") ∧
    handleDemote st2 (some ⟨none, n, none, none⟩) tid =
      (st2, Response.send 403 "Not authorized") := by
  refine ⟨?_, by simp [handleAdmin], by simp [handlePromote],
    by simp [handleDemote]⟩
  rw [signup_success hn he hp hfresh]

/-- Witness for claim C9: after a concrete signup, the session blocks
admin routes even against a store where that user is already admin. -/
theorem c9_witness :
    (handleSignup ⟨[], 0⟩ none (some "alice1") (some "a@x.com")
        (some "secret")).2.1 = some ⟨none, "alice1", none, none⟩ ∧
    handleAdmin ⟨[⟨0, "alice1", "a@x.com", bcryptHash "secret", "admin"⟩], 1⟩
        (some ⟨none, "alice1", none, none⟩) =
      Response.send 403 "Not authorized" ∧
    handlePromote ⟨[⟨0, "alice1", "a@x.com", bcryptHash "secret", "admin"⟩], 1⟩
        (some ⟨none, "alice1", none, none⟩) 0 =
      (⟨[⟨0, "alice1", "a@x.com", bcryptHash "secret", "admin"⟩], 1⟩,
       Response.send 403 "Not authorized") ∧
    handleDemote ⟨[⟨0, "alice1", "a@x.com", bcryptHash "secret", "admin"⟩], 1⟩
        (some ⟨none, "alice1", none, none⟩) 0 =
      (⟨[⟨0, "alice1", "a@x.com", bcryptHash "secret", "admin"⟩], 1⟩,
       Response.send 403 "Not authorized") :=
  c9_signup_session_not_admin ⟨[], 0⟩
    ⟨[⟨0, "alice1", "a@x.com", bcryptHash "secret", "admin"⟩], 1⟩ none
    "alice1" "a@x.com" "secret" 0
    (by decide) (by decide) (by decide) (by decide)

/-- Claim C10: logout never surfaces an error to the client: for every
session state and every destruction outcome the response is a redirect
to `/`, in particular when no session exists. -/
theorem c10_logout_always_redirects (sess : Session) (err : Option String) :
    (handleLogout sess err).2.2 = Response.redirect "/" ∧
    (handleLogout none err).2.2 = Response.redirect "/" := by
  cases err <;> exact ⟨rfl, rfl⟩

end App
